import Mathlib

/-!
Verification of the access-mode reconciliation logic and CRUD error handling
of the `tfe` provider resources `tfe_team_access` and
`tfe_notification_configuration`.

The Go sources are shallowly embedded: the diff context consulted by
`setCustomOrComputedPermissions` becomes an explicit record of the observable
queries the function makes (`GetOk`, `HasChange`, `GetChange`), and the
mutations it performs (`SetNewComputed`, `SetNew`) become an explicit decision
record applied to the diff state by the caller.  The remote API client is a
parameter: each CRUD function receives the outcome of the client call as an
`Except ClientError` value and handles it exactly as the Go code does.
-/

/-- A permission block field is either explicit (user supplied) or unset
(server computed).  Mirrors the five optional sub-fields of the
`permissions` schema block of `tfe_team_access`. -/
structure PermissionSet where
  runs : Option String
  variablesPerm : Option String
  stateVersions : Option String
  sentinelMocks : Option String
  workspaceLocking : Option Bool
deriving DecidableEq

/-- PermissionSet.hasExplicitField: true when at least one sub-field is
explicitly supplied. -/
def PermissionSet.hasExplicitField (p : PermissionSet) : Bool :=
  p.runs.isSome || p.variablesPerm.isSome || p.stateVersions.isSome ||
    p.sentinelMocks.isSome || p.workspaceLocking.isSome

/-- The diff state of a `tfe_team_access` resource that
`setCustomOrComputedPermissions` observes.  Strings use the Go zero value
`""` for "unset"; `permissionsOld`/`permissionsNew` model the (at most one
element) `permissions` list; `permissionsComputed` records whether
`SetNewComputed("permissions")` has been applied. -/
structure TeamAccessDiffState where
  accessOld : String
  accessNew : String
  permissionsOld : Option PermissionSet
  permissionsNew : Option PermissionSet
  permissionsComputed : Bool

/-- d.GetOk("access"): ok iff the effective new value is not the zero value. -/
def getOkAccess (d : TeamAccessDiffState) : Bool :=
  d.accessNew ≠ ""

/-- d.HasChange("access"). -/
def hasChangeAccess (d : TeamAccessDiffState) : Bool :=
  d.accessOld ≠ d.accessNew

/-- d.HasChange("permissions.0"). -/
def hasChangePermissions0 (d : TeamAccessDiffState) : Bool :=
  d.permissionsOld ≠ d.permissionsNew

/-- d.GetOk("permissions"): ok iff the list is non-empty. -/
def getOkPermissions (d : TeamAccessDiffState) : Bool :=
  d.permissionsNew.isSome

/-- tfe.AccessCustom from the client library. -/
def accessCustom : String := "custom"

/-- The diff mutations performed by `setCustomOrComputedPermissions`:
`d.SetNewComputed("permissions")` and `d.SetNew("access", v)`. -/
structure DiffDecision where
  setNewComputedPermissions : Bool
  setNewAccess : Option String

/-- setCustomOrComputedPermissions from resource_tfe_team_access.go: the
CustomizeDiff hook deciding between a fixed access level and a custom
permissions block.  The Go function mutates the diff and returns a nil
error; here it returns the decision, and `applyDecision` performs the
mutations. -/
def setCustomOrComputedPermissions (d : TeamAccessDiffState) :
    Except String DiffDecision :=
  Except.ok <|
    if getOkAccess d then
      if hasChangeAccess d then
        if d.accessNew ≠ "custom" then
          -- access is being changed to an explicit non-custom value: all
          -- permissions become read-only and computed by the API
          ⟨true, none⟩
        else
          ⟨false, none⟩
      else
        -- access present and unchanged, but permissions changed: the user is
        -- switching to a permissions block, so set access to custom
        if hasChangePermissions0 d then
          ⟨false, some accessCustom⟩
        else
          ⟨false, none⟩
    else
      -- no access set: creating a new resource with a permissions block
      if getOkPermissions d then
        ⟨false, some accessCustom⟩
      else
        ⟨false, none⟩

/-- applyDecision: the caller-side effect of the decision on the diff state. -/
def applyDecision (d : TeamAccessDiffState) (dec : DiffDecision) :
    TeamAccessDiffState :=
  let d1 :=
    if dec.setNewComputedPermissions then
      { d with permissionsComputed := true }
    else d
  match dec.setNewAccess with
  | some v => { d1 with accessNew := v }
  | none => d1

/-- decisionOf: the decision computed by the reconciler (its error component
is always nil). -/
def decisionOf (d : TeamAccessDiffState) : DiffDecision :=
  match setCustomOrComputedPermissions d with
  | Except.ok dec => dec
  | Except.error _ => ⟨false, none⟩

/-- reconcileDiff: one full invocation of the CustomizeDiff hook, i.e. the
decision applied back to the diff state. -/
def reconcileDiff (d : TeamAccessDiffState) : TeamAccessDiffState :=
  applyDecision d (decisionOf d)

/-- isFixedModeAuthoritative: the access level is a concrete non-custom value
and the permission set is fully computed (marked for recomputation or holding
no explicit field). -/
def isFixedModeAuthoritative (d : TeamAccessDiffState) : Bool :=
  decide (d.accessNew ≠ "") && decide (d.accessNew ≠ "custom") &&
    (d.permissionsComputed ||
      !(match d.permissionsNew with
        | some p => p.hasExplicitField
        | none => false))

/-- isCustomModeAuthoritative: the access level is "custom" and the permission
set holds at least one explicit field that is not marked for recomputation. -/
def isCustomModeAuthoritative (d : TeamAccessDiffState) : Bool :=
  decide (d.accessNew = "custom") &&
    (match d.permissionsNew with
     | some p => p.hasExplicitField
     | none => false) &&
    !d.permissionsComputed

/-- An error returned by the remote API client: either the not-found sentinel
tfe.ErrResourceNotFound (whose text is "resource not found") or any other
failure carrying its message. -/
inductive ClientError where
  | notFound : ClientError
  | other : String → ClientError
deriving DecidableEq

/-- ClientError.message: the text produced by formatting the error with %v. -/
def ClientError.message : ClientError → String
  | ClientError.notFound => "resource not found"
  | ClientError.other m => m

/-- A workspace as returned by tfeClient.Workspaces.ReadByID. -/
structure Workspace where
  id : String
  name : String

/-- A team as returned by tfeClient.Teams.Read. -/
structure Team where
  id : String
  name : String

/-- A team access grant as returned by the TeamAccess client calls.  `team`
is optional, as the Go pointer may be nil. -/
structure TeamAccess where
  id : String
  access : String
  runs : String
  variablesPerm : String
  stateVersions : String
  sentinelMocks : String
  workspaceLocking : Bool
  team : Option Team

/-- One element of the `permissions` list as stored in resource state (every
field concrete, Go zero values for absent ones). -/
structure PermissionsBlock where
  runs : String
  variablesPerm : String
  stateVersions : String
  sentinelMocks : String
  workspaceLocking : Bool

/-- The Terraform state of a `tfe_team_access` resource. -/
structure TeamAccessState where
  id : String
  access : String
  permissions : List PermissionsBlock
  teamID : String
  workspaceID : String

/-- resourceTFETeamAccessRead: reads the grant; on the not-found sentinel it
clears the ID and succeeds, on any other client error it fails with context,
and on success it writes access, permissions and team_id back into state. -/
def resourceTFETeamAccessRead (st : TeamAccessState)
    (readResult : Except ClientError TeamAccess) :
    Except String TeamAccessState :=
  match readResult with
  | Except.error e =>
      if e = ClientError.notFound then
        Except.ok { st with id := "" }
      else
        Except.error ("Error reading configuration of team access " ++
          st.id ++ ": " ++ e.message)
  | Except.ok tmAccess =>
      Except.ok { st with
        access := tmAccess.access,
        permissions := [⟨tmAccess.runs, tmAccess.variablesPerm,
          tmAccess.stateVersions, tmAccess.sentinelMocks,
          tmAccess.workspaceLocking⟩],
        teamID :=
          match tmAccess.team with
          | some tm => tm.id
          | none => "" }

/-- resourceTFETeamAccessDelete: removes the grant; the not-found sentinel is
treated as success, any other client error fails with context. -/
def resourceTFETeamAccessDelete (id : String)
    (removeResult : Except ClientError Unit) : Except String Unit :=
  match removeResult with
  | Except.error e =>
      if e = ClientError.notFound then
        Except.ok ()
      else
        Except.error ("Error deleting team access " ++ id ++ ": " ++
          e.message)
  | Except.ok _ => Except.ok ()

/-- The options struct tfe.TeamAccessAddOptions built by the create path. -/
structure TeamAccessAddOptions where
  access : String
  teamID : String
  workspaceID : String
  runs : Option String
  variablesPerm : Option String
  stateVersions : Option String
  sentinelMocks : Option String
  workspaceLocking : Option Bool

/-- resourceTFETeamAccessCreate: reads the workspace and the team, builds the
add options (string permission fields only when non-empty; workspace_locking
always, as the SDK cannot detect an unset boolean), and adds the grant.  Each
client failure is surfaced with context; on success the Go code stores the new
ID and re-reads via resourceTFETeamAccessRead (modelled separately). -/
def resourceTFETeamAccessCreate (access workspaceID teamID : String)
    (perms : Option PermissionsBlock)
    (wsResult : Except ClientError Workspace)
    (teamResult : Except ClientError Team)
    (addResult : TeamAccessAddOptions → Except ClientError TeamAccess) :
    Except String String :=
  match wsResult with
  | Except.error e =>
      Except.error ("Error retrieving workspace " ++ workspaceID ++ ": " ++
        e.message)
  | Except.ok ws =>
      match teamResult with
      | Except.error e =>
          Except.error ("Error retrieving team " ++ teamID ++ ": " ++
            e.message)
      | Except.ok tm =>
          let base : TeamAccessAddOptions :=
            ⟨access, tm.id, ws.id, none, none, none, none, none⟩
          let options :=
            match perms with
            | none => base
            | some p =>
                { base with
                  runs := if p.runs ≠ "" then some p.runs else none,
                  variablesPerm :=
                    if p.variablesPerm ≠ "" then some p.variablesPerm
                    else none,
                  stateVersions :=
                    if p.stateVersions ≠ "" then some p.stateVersions
                    else none,
                  sentinelMocks :=
                    if p.sentinelMocks ≠ "" then some p.sentinelMocks
                    else none,
                  workspaceLocking := some p.workspaceLocking }
          match addResult options with
          | Except.error e =>
              Except.error ("Error giving team " ++ tm.name ++ " " ++
                access ++ " access to workspace " ++ ws.name ++ ": " ++
                e.message)
          | Except.ok tmAccess => Except.ok tmAccess.id

/-- The diff queries HasChange and GetOk for one field of the update path. -/
structure FieldChange (α : Type) where
  hasChange : Bool
  value : Option α

/-- optionFromChange: a field enters the update options only when it changed
this apply and carries an ok value. -/
def optionFromChange {α : Type} (fc : FieldChange α) : Option α :=
  if fc.hasChange then
    match fc.value with
    | some v => some v
    | none => none
  else none

/-- The options struct tfe.TeamAccessUpdateOptions. -/
structure TeamAccessUpdateOptions where
  access : String
  runs : Option String
  variablesPerm : Option String
  stateVersions : Option String
  sentinelMocks : Option String
  workspaceLocking : Option Bool

/-- resourceTFETeamAccessUpdate: always sends the access level, sends each
permission field only when changed and present, surfaces client failures with
context, and on success rewrites the permissions list from the response. -/
def resourceTFETeamAccessUpdate (id access : String)
    (runs variablesPerm stateVersions sentinelMocks : FieldChange String)
    (workspaceLocking : FieldChange Bool)
    (updateResult : TeamAccessUpdateOptions → Except ClientError TeamAccess) :
    Except String (List PermissionsBlock) :=
  let options : TeamAccessUpdateOptions :=
    ⟨access, optionFromChange runs, optionFromChange variablesPerm,
      optionFromChange stateVersions, optionFromChange sentinelMocks,
      optionFromChange workspaceLocking⟩
  match updateResult options with
  | Except.error e =>
      Except.error ("Error updating team access " ++ id ++ ": " ++ e.message)
  | Except.ok tmAccess =>
      Except.ok [⟨tmAccess.runs, tmAccess.variablesPerm,
        tmAccess.stateVersions, tmAccess.sentinelMocks,
        tmAccess.workspaceLocking⟩]

/-- tfe.NotificationDestinationTypeSlack from the client library. -/
def notificationDestinationTypeSlack : String := "slack"

/-- A notification configuration as returned by the client.  `subscribableID`
is the ID of the workspace the configuration subscribes to. -/
structure NotificationConfiguration where
  id : String
  destinationType : String
  enabled : Bool
  name : String
  triggers : List String
  url : String
  subscribableID : String

/-- The Terraform state of a `tfe_notification_configuration` resource. -/
structure NotificationConfigurationState where
  id : String
  name : String
  destinationType : String
  token : String
  url : String
  enabled : Bool
  triggers : List String
  workspaceExternalID : String
  workspaceID : String

/-- The options struct tfe.NotificationConfigurationCreateOptions. -/
structure NotificationConfigurationCreateOptions where
  destinationType : String
  enabled : Bool
  name : String
  token : String
  url : String
  triggers : List String

/-- The options struct tfe.NotificationConfigurationUpdateOptions. -/
structure NotificationConfigurationUpdateOptions where
  enabled : Bool
  name : String
  token : String
  url : String
  triggers : List String

/-- The outcome of an operation that may return before reaching the remote
client: its result plus whether the client call was made. -/
structure CreateOutcome (σ : Type) where
  result : Except String σ
  clientCalled : Bool

/-- resourceTFENotificationConfigurationCreate: requires one of
workspace_external_id or workspace_id, rejects a token together with the
slack destination type before calling the client, then creates the
configuration; a client failure is surfaced with context.  On success the Go
code stores the new ID and re-reads (modelled separately). -/
def resourceTFENotificationConfigurationCreate
    (workspaceExternalID workspaceID : Option String)
    (destinationType : String) (enabled : Bool) (name token url : String)
    (triggers : List String)
    (createResult : String → NotificationConfigurationCreateOptions →
      Except ClientError NotificationConfiguration) :
    CreateOutcome String :=
  match workspaceExternalID, workspaceID with
  | none, none =>
      ⟨Except.error "One of workspace_id or workspace_external_id must be set",
        false⟩
  | wsExt, wsID =>
      let wsIDValue :=
        match wsExt with
        | some v => v
        | none => wsID.getD ""
      if token ≠ "" ∧ destinationType = notificationDestinationTypeSlack then
        ⟨Except.error ("Token cannot be set with destination_type of " ++
          destinationType), false⟩
      else
        match createResult wsIDValue
            ⟨destinationType, enabled, name, token, url, triggers⟩ with
        | Except.error e =>
            ⟨Except.error ("Error creating notification configuration " ++
              name ++ ": " ++ e.message), true⟩
        | Except.ok nc => ⟨Except.ok nc.id, true⟩

/-- resourceTFENotificationConfigurationRead: on the not-found sentinel it
clears the ID and succeeds, on any other client error it fails with context,
and on success it writes the attributes back into state (the token is write
only and is not touched). -/
def resourceTFENotificationConfigurationRead
    (st : NotificationConfigurationState)
    (readResult : Except ClientError NotificationConfiguration) :
    Except String NotificationConfigurationState :=
  match readResult with
  | Except.error e =>
      if e = ClientError.notFound then
        Except.ok { st with id := "" }
      else
        Except.error ("Error reading notification configuration " ++
          st.id ++ ": " ++ e.message)
  | Except.ok nc =>
      Except.ok { st with
        destinationType := nc.destinationType,
        enabled := nc.enabled,
        name := nc.name,
        triggers := nc.triggers,
        url := nc.url,
        workspaceExternalID := nc.subscribableID,
        workspaceID := nc.subscribableID }

/-- resourceTFENotificationConfigurationUpdate: rejects a token together with
the slack destination type before calling the client, then updates the
configuration; a client failure is surfaced with context.  On success the Go
code re-reads (modelled separately). -/
def resourceTFENotificationConfigurationUpdate
    (id destinationType : String) (enabled : Bool) (name token url : String)
    (triggers : List String)
    (updateResult : String → NotificationConfigurationUpdateOptions →
      Except ClientError NotificationConfiguration) :
    CreateOutcome Unit :=
  if token ≠ "" ∧ destinationType = notificationDestinationTypeSlack then
    ⟨Except.error ("Token cannot be set with destination_type of " ++
      destinationType), false⟩
  else
    match updateResult id ⟨enabled, name, token, url, triggers⟩ with
    | Except.error e =>
        ⟨Except.error ("Error updating notification configuration " ++
          id ++ ": " ++ e.message), true⟩
    | Except.ok _ => ⟨Except.ok (), true⟩

/-- resourceTFENotificationConfigurationDelete: deletes the configuration; the
not-found sentinel is treated as success, any other client error fails with
context. -/
def resourceTFENotificationConfigurationDelete (id : String)
    (deleteResult : Except ClientError Unit) : Except String Unit :=
  match deleteResult with
  | Except.error e =>
      if e = ClientError.notFound then
        Except.ok ()
      else
        Except.error ("Error deleting notification configuration " ++ id ++
          ": " ++ e.message)
  | Except.ok _ => Except.ok ()

/-- containsStr s sub: sub occurs as a contiguous substring of s. -/
def containsStr (s sub : String) : Prop :=
  ∃ p q : String, s = p ++ sub ++ q

/-- A string occurs in any package of itself between two others. -/
theorem containsStr_here (p sub q : String) : containsStr (p ++ sub ++ q) sub :=
  ⟨p, q, rfl⟩

/-- A string occurs at the end of an append. -/
theorem containsStr_suffixPos (p sub : String) : containsStr (p ++ sub) sub :=
  ⟨p, "", (String.append_empty (p ++ sub)).symm⟩

/-- Occurrence is preserved by appending on the right. -/
theorem containsStr_appendRight (s sub t : String) (h : containsStr s sub) :
    containsStr (s ++ t) sub := by
  obtain ⟨p, q, rfl⟩ := h
  exact ⟨p, q ++ t, by rw [String.append_assoc (p ++ sub) q t]⟩

/-- Occurrence is preserved by appending on the left. -/
theorem containsStr_appendLeft (t s sub : String) (h : containsStr s sub) :
    containsStr (t ++ s) sub := by
  obtain ⟨p, q, rfl⟩ := h
  refine ⟨t ++ p, q, ?_⟩
  simp [String.append_assoc]

/-- C1: when access has a concrete value, it changed this apply, and the new
value is not "custom", the reconciler marks permissions force-recomputed and
does not override the proposed access value. -/
theorem reconcile_fixed_access_change (d : TeamAccessDiffState)
    (h1 : getOkAccess d = true) (h2 : hasChangeAccess d = true)
    (h3 : d.accessNew ≠ "custom") :
    setCustomOrComputedPermissions d = Except.ok ⟨true, none⟩ := by
  simp [setCustomOrComputedPermissions, h1, h2, h3]

/-- C1 witness: old access "read", new access "write". -/
theorem reconcile_fixed_access_change_witness :
    setCustomOrComputedPermissions ⟨"read", "write", none, none, false⟩ =
      Except.ok ⟨true, none⟩ :=
  reconcile_fixed_access_change ⟨"read", "write", none, none, false⟩
    (by decide) (by decide) (by decide)

/-- C2: when access has a concrete value, it changed this apply, and the new
value equals "custom", the reconciler performs no recomputation marking and no
access override, and the diff state is left unchanged. -/
theorem reconcile_change_to_custom (d : TeamAccessDiffState)
    (h1 : getOkAccess d = true) (h2 : hasChangeAccess d = true)
    (h3 : d.accessNew = "custom") :
    setCustomOrComputedPermissions d = Except.ok ⟨false, none⟩ ∧
      reconcileDiff d = d := by
  have hdec : setCustomOrComputedPermissions d = Except.ok ⟨false, none⟩ := by
    simp [setCustomOrComputedPermissions, h1, h2, h3]
  refine ⟨hdec, ?_⟩
  simp [reconcileDiff, decisionOf, hdec, applyDecision]

/-- C2 witness: old access "read", new access "custom". -/
theorem reconcile_change_to_custom_witness :
    setCustomOrComputedPermissions ⟨"read", "custom", none, none, false⟩ =
        Except.ok ⟨false, none⟩ ∧
      reconcileDiff ⟨"read", "custom", none, none, false⟩ =
        ⟨"read", "custom", none, none, false⟩ :=
  reconcile_change_to_custom ⟨"read", "custom", none, none, false⟩
    (by decide) (by decide) (by decide)

/-- C3: when access has a concrete value, it did not change this apply, and
the permissions block changed, the reconciler overrides access to "custom" and
does not mark permissions for recomputation. -/
theorem reconcile_permissions_edit (d : TeamAccessDiffState)
    (h1 : getOkAccess d = true) (h2 : hasChangeAccess d = false)
    (h3 : hasChangePermissions0 d = true) :
    setCustomOrComputedPermissions d = Except.ok ⟨false, some accessCustom⟩ := by
  simp [setCustomOrComputedPermissions, h1, h2, h3]

/-- C3 witness: access "read" unchanged, runs permission edited. -/
theorem reconcile_permissions_edit_witness :
    setCustomOrComputedPermissions
        ⟨"read", "read", none,
          some (⟨some "apply", none, none, none, none⟩ : PermissionSet),
          false⟩ =
      Except.ok ⟨false, some accessCustom⟩ :=
  reconcile_permissions_edit
    ⟨"read", "read", none,
      some (⟨some "apply", none, none, none, none⟩ : PermissionSet), false⟩
    (by decide) (by decide) (by decide)

/-- C4: when no access value is present, the reconciler overrides access to
"custom" if a permissions block is present, and otherwise leaves the diff
state unchanged. -/
theorem reconcile_no_access (d : TeamAccessDiffState)
    (h1 : getOkAccess d = false) :
    (getOkPermissions d = true →
      setCustomOrComputedPermissions d =
        Except.ok ⟨false, some accessCustom⟩) ∧
    (getOkPermissions d = false →
      setCustomOrComputedPermissions d = Except.ok ⟨false, none⟩ ∧
        reconcileDiff d = d) := by
  constructor
  · intro h2
    simp [setCustomOrComputedPermissions, h1, h2]
  · intro h2
    have hdec : setCustomOrComputedPermissions d = Except.ok ⟨false, none⟩ := by
      simp [setCustomOrComputedPermissions, h1, h2]
    exact ⟨hdec, by simp [reconcileDiff, decisionOf, hdec, applyDecision]⟩

/-- C4 witness: new resource with a permissions block carrying runs "plan". -/
theorem reconcile_no_access_witness :
    getOkPermissions
        ⟨"", "", none,
          some (⟨some "plan", none, none, none, none⟩ : PermissionSet),
          false⟩ = true ∧
      setCustomOrComputedPermissions
          ⟨"", "", none,
            some (⟨some "plan", none, none, none, none⟩ : PermissionSet),
            false⟩ =
        Except.ok ⟨false, some accessCustom⟩ :=
  ⟨by decide,
    (reconcile_no_access
        ⟨"", "", none,
          some (⟨some "plan", none, none, none, none⟩ : PermissionSet), false⟩
        (by decide)).1 (by decide)⟩

/-- C5: the reconciler is deterministic and idempotent: two invocations on the
same diff state produce the same decision as a single invocation. -/
theorem reconcile_deterministic (d₁ d₂ : TeamAccessDiffState) (h : d₁ = d₂) :
    setCustomOrComputedPermissions d₁ = setCustomOrComputedPermissions d₂ := by
  rw [h]

/-- C5 witness: two invocations on the same concrete diff state agree. -/
theorem reconcile_deterministic_witness :
    setCustomOrComputedPermissions ⟨"read", "write", none, none, false⟩ =
      setCustomOrComputedPermissions ⟨"read", "write", none, none, false⟩ :=
  reconcile_deterministic ⟨"read", "write", none, none, false⟩
    ⟨"read", "write", none, none, false⟩ rfl

/-- C6: the reconciler is total and error-free: every diff state maps to a
defined decision under a nil error. -/
theorem reconcile_total_no_error (d : TeamAccessDiffState) :
    ∃ dec : DiffDecision,
      setCustomOrComputedPermissions d = Except.ok dec := by
  unfold setCustomOrComputedPermissions
  exact ⟨_, rfl⟩

/-- The fixed and custom authoritative modes are mutually exclusive on any
diff state, since access cannot both equal and differ from "custom". -/
theorem modes_exclusive_any (s : TeamAccessDiffState) :
    (isFixedModeAuthoritative s && isCustomModeAuthoritative s) = false := by
  by_cases h : s.accessNew = "custom" <;>
    simp [isFixedModeAuthoritative, isCustomModeAuthoritative, h]

/-- C9 counterexample: on a creation diff with neither an access value nor a
permissions block, reconciliation leaves the diff unchanged and neither mode
is user-authoritative, so "exactly one" fails. -/
theorem reconcile_exactly_one_cex :
    (isFixedModeAuthoritative (reconcileDiff ⟨"", "", none, none, false⟩) ||
      isCustomModeAuthoritative (reconcileDiff ⟨"", "", none, none, false⟩)) =
      false := by decide

/-- C9 (amended): after reconciliation at most one of the two modes holds:
a concrete non-custom access level with a fully computed permission set, and
a "custom" access level with an explicit permission field, are never
simultaneously user-authoritative. -/
theorem reconcile_modes_mutually_exclusive (d : TeamAccessDiffState) :
    (isFixedModeAuthoritative (reconcileDiff d) &&
      isCustomModeAuthoritative (reconcileDiff d)) = false :=
  modes_exclusive_any (reconcileDiff d)

/-- The variable chunk of an error message of shape
literal ++ x ++ literal ++ clientText occurs in the message. -/
theorem containsStr_mid (L1 x L2 em : String) :
    containsStr (L1 ++ x ++ L2 ++ em) x :=
  containsStr_appendRight _ _ _
    (containsStr_appendRight _ _ _ (containsStr_suffixPos L1 x))

/-- A substring of the leading literal of an error message of shape
literal ++ x ++ literal ++ clientText occurs in the message. -/
theorem containsStr_inLit (L1 x L2 em p sub q : String)
    (h : L1 = p ++ sub ++ q) :
    containsStr (L1 ++ x ++ L2 ++ em) sub := by
  rw [h]
  exact containsStr_appendRight _ _ _ (containsStr_appendRight _ _ _
    (containsStr_appendRight _ _ _ (containsStr_here p sub q)))

/-- C7: when the client returns the not-found sentinel, read clears the
resource ID and succeeds, and delete succeeds, for both resources. -/
theorem notFound_read_delete_idempotent (st : TeamAccessState)
    (nst : NotificationConfigurationState) (tid nid : String) :
    resourceTFETeamAccessRead st (Except.error ClientError.notFound) =
        Except.ok { st with id := "" } ∧
      resourceTFETeamAccessDelete tid (Except.error ClientError.notFound) =
        Except.ok () ∧
      resourceTFENotificationConfigurationRead nst
          (Except.error ClientError.notFound) =
        Except.ok { nst with id := "" } ∧
      resourceTFENotificationConfigurationDelete nid
          (Except.error ClientError.notFound) =
        Except.ok () := by
  refine ⟨?_, ?_, ?_, ?_⟩ <;>
    simp [resourceTFETeamAccessRead, resourceTFETeamAccessDelete,
      resourceTFENotificationConfigurationRead,
      resourceTFENotificationConfigurationDelete]

/-- C10: a non-empty token together with the slack destination type makes both
create and update of a notification configuration return an error without
invoking the remote client. -/
theorem slack_token_rejected_before_client
    (workspaceExternalID workspaceID : Option String)
    (destinationType : String) (enabled : Bool) (name token url : String)
    (triggers : List String)
    (createResult : String → NotificationConfigurationCreateOptions →
      Except ClientError NotificationConfiguration)
    (id : String)
    (updateResult : String → NotificationConfigurationUpdateOptions →
      Except ClientError NotificationConfiguration)
    (ht : token ≠ "")
    (hd : destinationType = notificationDestinationTypeSlack) :
    ((resourceTFENotificationConfigurationCreate workspaceExternalID
          workspaceID destinationType enabled name token url triggers
          createResult).clientCalled = false ∧
      ∃ m, (resourceTFENotificationConfigurationCreate workspaceExternalID
          workspaceID destinationType enabled name token url triggers
          createResult).result = Except.error m) ∧
    ((resourceTFENotificationConfigurationUpdate id destinationType enabled
          name token url triggers updateResult).clientCalled = false ∧
      ∃ m, (resourceTFENotificationConfigurationUpdate id destinationType
          enabled name token url triggers
          updateResult).result = Except.error m) := by
  constructor
  · rcases workspaceExternalID with _ | v <;> rcases workspaceID with _ | w <;>
      simp [resourceTFENotificationConfigurationCreate, ht, hd]
  · simp [resourceTFENotificationConfigurationUpdate, ht, hd]

/-- C10 witness: creating and updating with destination type "slack" and a
non-empty token is rejected without a client call. -/
theorem slack_token_rejected_before_client_witness :
    (CreateOutcome.clientCalled
        (resourceTFENotificationConfigurationCreate (some "ws-123") none
          "slack" true "n" "tok" "https://example.com" []
          (fun _ _ => Except.error (ClientError.other "unreachable"))) =
        false ∧
      ∃ m, CreateOutcome.result
          (resourceTFENotificationConfigurationCreate (some "ws-123") none
            "slack" true "n" "tok" "https://example.com" []
            (fun _ _ => Except.error (ClientError.other "unreachable"))) =
          Except.error m) ∧
    (CreateOutcome.clientCalled
        (resourceTFENotificationConfigurationUpdate "nc-1" "slack" true "n"
          "tok" "https://example.com" []
          (fun _ _ => Except.error (ClientError.other "unreachable"))) =
        false ∧
      ∃ m, CreateOutcome.result
          (resourceTFENotificationConfigurationUpdate "nc-1" "slack" true
            "n" "tok" "https://example.com" []
            (fun _ _ => Except.error (ClientError.other "unreachable"))) =
          Except.error m) :=
  slack_token_rejected_before_client (some "ws-123") none "slack" true "n"
    "tok" "https://example.com" []
    (fun _ _ => Except.error (ClientError.other "unreachable")) "nc-1"
    (fun _ _ => Except.error (ClientError.other "unreachable"))
    (by decide) rfl

/-- C8: every client failure other than the not-found sentinel is surfaced as
a non-nil error whose message names the kind and identifier of the entity the
failed call concerned, across the read, create, update and delete operations
of both resources. -/
theorem client_errors_surfaced (e : ClientError)
    (he : e ≠ ClientError.notFound) :
    (∀ st : TeamAccessState, ∃ msg,
        resourceTFETeamAccessRead st (Except.error e) = Except.error msg ∧
          containsStr msg "team access" ∧ containsStr msg st.id) ∧
    (∀ (tid access : String) (fr fv fs fm : FieldChange String)
        (fl : FieldChange Bool), ∃ msg,
        resourceTFETeamAccessUpdate tid access fr fv fs fm fl
            (fun _ => Except.error e) = Except.error msg ∧
          containsStr msg "team access" ∧ containsStr msg tid) ∧
    (∀ tid : String, ∃ msg,
        resourceTFETeamAccessDelete tid (Except.error e) = Except.error msg ∧
          containsStr msg "team access" ∧ containsStr msg tid) ∧
    (∀ (access workspaceID teamID : String) (perms : Option PermissionsBlock)
        (teamResult : Except ClientError Team)
        (addResult : TeamAccessAddOptions → Except ClientError TeamAccess),
        ∃ msg,
        resourceTFETeamAccessCreate access workspaceID teamID perms
            (Except.error e) teamResult addResult = Except.error msg ∧
          containsStr msg "workspace" ∧ containsStr msg workspaceID) ∧
    (∀ (access workspaceID teamID : String) (perms : Option PermissionsBlock)
        (ws : Workspace)
        (addResult : TeamAccessAddOptions → Except ClientError TeamAccess),
        ∃ msg,
        resourceTFETeamAccessCreate access workspaceID teamID perms
            (Except.ok ws) (Except.error e) addResult = Except.error msg ∧
          containsStr msg "team" ∧ containsStr msg teamID) ∧
    (∀ (access workspaceID teamID : String) (perms : Option PermissionsBlock)
        (ws : Workspace) (tm : Team), ∃ msg,
        resourceTFETeamAccessCreate access workspaceID teamID perms
            (Except.ok ws) (Except.ok tm) (fun _ => Except.error e) =
          Except.error msg ∧
          containsStr msg "access to workspace" ∧ containsStr msg tm.name ∧
          containsStr msg ws.name) ∧
    (∀ nst : NotificationConfigurationState, ∃ msg,
        resourceTFENotificationConfigurationRead nst (Except.error e) =
          Except.error msg ∧
          containsStr msg "notification configuration" ∧
          containsStr msg nst.id) ∧
    (∀ (workspaceExternalID workspaceID : Option String)
        (destinationType : String)
        (enabled : Bool) (name token url : String) (triggers : List String),
        ¬(workspaceExternalID = none ∧ workspaceID = none) →
        ¬(token ≠ "" ∧ destinationType = notificationDestinationTypeSlack) →
        ∃ msg,
        CreateOutcome.result
            (resourceTFENotificationConfigurationCreate workspaceExternalID
              workspaceID destinationType enabled name token url triggers
              (fun _ _ => Except.error e)) = Except.error msg ∧
          containsStr msg "notification configuration" ∧
          containsStr msg name) ∧
    (∀ (nid destinationType : String) (enabled : Bool)
        (name token url : String) (triggers : List String),
        ¬(token ≠ "" ∧ destinationType = notificationDestinationTypeSlack) →
        ∃ msg,
        CreateOutcome.result
            (resourceTFENotificationConfigurationUpdate nid destinationType
              enabled name token url triggers
              (fun _ _ => Except.error e)) = Except.error msg ∧
          containsStr msg "notification configuration" ∧
          containsStr msg nid) ∧
    (∀ nid : String, ∃ msg,
        resourceTFENotificationConfigurationDelete nid (Except.error e) =
          Except.error msg ∧
          containsStr msg "notification configuration" ∧
          containsStr msg nid) := by
  refine ⟨?_, ?_, ?_, ?_, ?_, ?_, ?_, ?_, ?_, ?_⟩
  · intro st
    refine ⟨"Error reading configuration of team access " ++ st.id ++ ": " ++
      ClientError.message e, ?_, ?_, ?_⟩
    · simp [resourceTFETeamAccessRead, he]
    · exact containsStr_inLit _ _ _ _ "Error reading configuration of "
        "team access" " " rfl
    · exact containsStr_mid _ _ _ _
  · intro tid access fr fv fs fm fl
    refine ⟨"Error updating team access " ++ tid ++ ": " ++
      ClientError.message e, ?_, ?_, ?_⟩
    · simp [resourceTFETeamAccessUpdate]
    · exact containsStr_inLit _ _ _ _ "Error updating " "team access" " " rfl
    · exact containsStr_mid _ _ _ _
  · intro tid
    refine ⟨"Error deleting team access " ++ tid ++ ": " ++
      ClientError.message e, ?_, ?_, ?_⟩
    · simp [resourceTFETeamAccessDelete, he]
    · exact containsStr_inLit _ _ _ _ "Error deleting " "team access" " " rfl
    · exact containsStr_mid _ _ _ _
  · intro access workspaceID teamID perms teamResult addResult
    refine ⟨"Error retrieving workspace " ++ workspaceID ++ ": " ++
      ClientError.message e, ?_, ?_, ?_⟩
    · simp [resourceTFETeamAccessCreate]
    · exact containsStr_inLit _ _ _ _ "Error retrieving " "workspace" " " rfl
    · exact containsStr_mid _ _ _ _
  · intro access workspaceID teamID perms ws addResult
    refine ⟨"Error retrieving team " ++ teamID ++ ": " ++
      ClientError.message e, ?_, ?_, ?_⟩
    · simp [resourceTFETeamAccessCreate]
    · exact containsStr_inLit _ _ _ _ "Error retrieving " "team" " " rfl
    · exact containsStr_mid _ _ _ _
  · intro access workspaceID teamID perms ws tm
    refine ⟨"Error giving team " ++ tm.name ++ " " ++ access ++
      " access to workspace " ++ ws.name ++ ": " ++ ClientError.message e,
      ?_, ?_, ?_, ?_⟩
    · simp [resourceTFETeamAccessCreate]
    · exact containsStr_appendRight _ _ _ (containsStr_appendRight _ _ _
        (containsStr_appendRight _ _ _ (containsStr_appendLeft _ _ _
          (⟨" ", " ", rfl⟩ : containsStr " access to workspace "
            "access to workspace"))))
    · exact containsStr_appendRight _ _ _ (containsStr_appendRight _ _ _
        (containsStr_appendRight _ _ _ (containsStr_appendRight _ _ _
          (containsStr_appendRight _ _ _ (containsStr_appendRight _ _ _
            (containsStr_suffixPos "Error giving team " tm.name))))))
    · exact containsStr_appendRight _ _ _ (containsStr_appendRight _ _ _
        (containsStr_suffixPos _ ws.name))
  · intro nst
    refine ⟨"Error reading notification configuration " ++ nst.id ++ ": " ++
      ClientError.message e, ?_, ?_, ?_⟩
    · simp [resourceTFENotificationConfigurationRead, he]
    · exact containsStr_inLit _ _ _ _ "Error reading "
        "notification configuration" " " rfl
    · exact containsStr_mid _ _ _ _
  · intro workspaceExternalID workspaceID destinationType enabled name token
      url triggers hw hnt
    refine ⟨"Error creating notification configuration " ++ name ++ ": " ++
      ClientError.message e, ?_, ?_, ?_⟩
    · rcases workspaceExternalID with _ | v <;> rcases workspaceID with _ | w
      · exact absurd ⟨rfl, rfl⟩ hw
      all_goals simp [resourceTFENotificationConfigurationCreate, hnt]
    · exact containsStr_inLit _ _ _ _ "Error creating "
        "notification configuration" " " rfl
    · exact containsStr_mid _ _ _ _
  · intro nid destinationType enabled name token url triggers hnt
    refine ⟨"Error updating notification configuration " ++ nid ++ ": " ++
      ClientError.message e, ?_, ?_, ?_⟩
    · simp [resourceTFENotificationConfigurationUpdate, hnt]
    · exact containsStr_inLit _ _ _ _ "Error updating "
        "notification configuration" " " rfl
    · exact containsStr_mid _ _ _ _
  · intro nid
    refine ⟨"Error deleting notification configuration " ++ nid ++ ": " ++
      ClientError.message e, ?_, ?_, ?_⟩
    · simp [resourceTFENotificationConfigurationDelete, he]
    · exact containsStr_inLit _ _ _ _ "Error deleting "
        "notification configuration" " " rfl
    · exact containsStr_mid _ _ _ _

/-- C8 witness: a non-not-found client failure during a team access read is
surfaced with the kind and identifier in the message. -/
theorem client_errors_surfaced_witness :
    ∃ msg,
      resourceTFETeamAccessRead ⟨"tws-123", "read", [], "team-1", "ws-1"⟩
          (Except.error (ClientError.other "boom")) = Except.error msg ∧
        containsStr msg "team access" ∧ containsStr msg "tws-123" :=
  (client_errors_surfaced (ClientError.other "boom") (by decide)).1
    ⟨"tws-123", "read", [], "team-1", "ws-1"⟩
